import Mathlib

/-!
Verification of the history-persistence and embedding-augmented retrieval
layer of GradeSchoolMathSolver.

Shallow embedding of:
- `src/gradeschoolmathsolver/services/embedding/service.py` (EmbeddingService)
- `src/src/gradeschoolmathsolver/services/quiz_history/service.py` (QuizHistoryService)

External collaborators (the database service, the HTTP layer, the
configuration module) are modelled as explicit parameters: the database is a
`DbEnv` of pure functions, and the embedding endpoint's reply is an
`EmbedResponse` parameter.  Service operations additionally return the list
of backend calls they attempted (`Op`), so that "no insert was performed"
is a statement about the returned trace.
-/

namespace GradeSchoolMathSolver

/-- JSON-style field value stored in a backend document.  Vector payloads and
numbers are modelled as rationals: the Python code never computes on them, it
only moves them around, so `Rat` is a faithful opaque stand-in for `float`. -/
inductive Value where
  | null
  | str (s : String)
  | num (q : Rat)
  | bool (b : Bool)
  | vec (v : List Rat)
deriving Repr, DecidableEq

/-- A backend document: an insertion-ordered dictionary, like a Python dict. -/
abbrev Doc := List (String × Value)

/-- First-match lookup in an ordered dictionary (Python `d.get(k)`). -/
def lookupPairs {α : Type} : List (String × α) → String → Option α
  | [], _ => none
  | (k, v) :: rest, key => if key = k then some v else lookupPairs rest key

/-- Python `d[k] = v`: overwrite in place if the key exists, else append. -/
def setKey : Doc → String → Value → Doc
  | [], k, v => [(k, v)]
  | (k1, v1) :: rest, k, v =>
    if k1 = k then (k, v) :: rest else (k1, v1) :: setKey rest k v

/-- Python `d.update(kvs)`: set each key of `kvs` in order. -/
def dictUpdate (d : Doc) : List (String × Value) → Doc
  | [] => d
  | kv :: rest => dictUpdate (setKey d kv.1 kv.2) rest

/-- OpenAI-compatible embeddings endpoint reply, reduced to what the code
reads: the HTTP status code and, for each item of the response's `data`
list, that item's `embedding` field (`item.get('embedding', [])`, so a
missing field appears as `[]`).  A `none` response models a raised
`requests` exception: timeout, connection error, or malformed body. -/
structure EmbedResponse where
  status : Nat
  data : List (List Rat)
deriving Repr, DecidableEq

namespace EmbeddingService

/-- `EmbeddingService.generate_embedding` (embedding/service.py, lines 20-63):
returns `None` when disabled, on empty/whitespace-only input, on a raised
exception, on non-200 status, on an empty `data` list, or when the first
item's embedding is empty; otherwise the first item's embedding. -/
def generate_embedding (enabled : Bool) (text : String) (net : Option EmbedResponse) :
    Option (List Rat) :=
  if !enabled then none
  else if text.trim = "" then none
  else
    match net with
    | none => none
    | some r =>
      if r.status = 200 then
        match r.data with
        | [] => none
        | emb :: _ => if emb = [] then none else some emb
      else none

/-- `EmbeddingService.generate_embeddings` (embedding/service.py, lines 65-108):
the batch variant.  Returns `None` when disabled, on an empty input list, on a
raised exception, on non-200 status, on an empty `data` list, or when some
returned embedding is empty (`if all(embeddings)`); otherwise returns the
response's list of embeddings.  Note the code never compares `len(data)` with
`len(texts)`. -/
def generate_embeddings (enabled : Bool) (texts : List String) (net : Option EmbedResponse) :
    Option (List (List Rat)) :=
  if !enabled then none
  else if texts = [] then none
  else
    match net with
    | none => none
    | some r =>
      if r.status = 200 then
        if r.data = [] then none
        else if r.data.all (fun e => !e.isEmpty) then some r.data
        else none
      else none

end EmbeddingService

/-- Modelled from the spec: the `QuizHistory` record (§3 of the spec; the
class itself lives in `gradeschoolmathsolver/models`, which is not under
`src/`).  Fields are exactly the ones `add_history` reads, plus `reviewed`
(spec §3: bool, defaults false).  `timestamp` is modelled as the string
`history.timestamp.isoformat()` produces, since the service only ever
serializes it. -/
structure QuizHistory where
  username : String
  question : String
  user_equation : String
  user_answer : Rat
  correct_answer : Rat
  is_correct : Bool
  category : String
  timestamp : String
  reviewed : Bool
deriving Repr, DecidableEq

/-- The distinct `RuntimeError`s `_generate_embeddings` can raise
(quiz_history/service.py): service not initializable (line 189), empty
source text (line 204), and embedding generation failed or returned `None`
(lines 239 and 245).  The spec names the last two `EmbeddingSourceMissing`
and `EmbeddingUnavailable`. -/
inductive AddErr where
  | serviceUnavailable
  | sourceMissing (source_col : String)
  | embeddingUnavailable (embedding_col : String)
deriving Repr, DecidableEq

/-- True exactly on the `EmbeddingUnavailable`-kind failure. -/
def isEmbeddingUnavailable : Except AddErr (List (String × List Rat)) → Bool
  | .error (.embeddingUnavailable _) => true
  | _ => false

/-- The `source_values` dict of `_generate_embeddings`
(quiz_history/service.py, lines 195-198). -/
def source_values (h : QuizHistory) : List (String × String) :=
  [("question", h.question), ("equation", h.user_equation)]

/-- The loop body of `_generate_embeddings` (quiz_history/service.py, lines
200-212) together with `_generate_single_embedding` (lines 214-250).  The
embedding client is a function `String → Option (List Rat)`; `none` covers
both a raised exception (line 239) and a `None` return (line 245) — both
become the `EmbeddingUnavailable`-kind `RuntimeError`.  Processing is
left-to-right and aborts at the first failing pair. -/
def generate_embeddings_pairs (client : String → Option (List Rat)) (h : QuizHistory) :
    List (String × String) → Except AddErr (List (String × List Rat))
  | [] => .ok []
  | (source_col, embedding_col) :: rest =>
    let source_text := (lookupPairs (source_values h) source_col).getD ""
    if source_text = "" then .error (.sourceMissing source_col)
    else
      match client source_text with
      | none => .error (.embeddingUnavailable embedding_col)
      | some emb =>
        match generate_embeddings_pairs client h rest with
        | .error e => .error e
        | .ok tail => .ok ((embedding_col, emb) :: tail)

/-- `QuizHistoryService._generate_embeddings` (quiz_history/service.py, lines
174-212): fails with the service-unavailable error when
`_get_embedding_service()` returned `None`, else runs the per-pair loop over
the configured mapping. -/
def generate_embeddings_svc (svc : Option (String → Option (List Rat)))
    (mapping : List (String × String)) (h : QuizHistory) :
    Except AddErr (List (String × List Rat)) :=
  match svc with
  | none => .error .serviceUnavailable
  | some client => generate_embeddings_pairs client h mapping

/-- The base document built by `add_history` (quiz_history/service.py, lines
134-145): both `equation` and `user_equation` hold
`history.user_equation`, and `reviewed` is the literal `False`. -/
def build_doc (h : QuizHistory) : Doc :=
  [("username", .str h.username),
   ("question", .str h.question),
   ("equation", .str h.user_equation),
   ("user_equation", .str h.user_equation),
   ("user_answer", .num h.user_answer),
   ("correct_answer", .num h.correct_answer),
   ("is_correct", .bool h.is_correct),
   ("category", .str h.category),
   ("timestamp", .str h.timestamp),
   ("reviewed", .bool false)]

/-- Backend-neutral rendering of the Elasticsearch-style query dicts the
service builds. -/
inductive Query where
  | matchQ (field text : String)
  | matchBoost (field text : String) (boost : Nat)
  | termQ (field value : String)
  | boolQ (must should : List Query)
deriving Repr

/-- A search hit as the service reads it: `hit['_source']` and
`hit.get('_score', 0)`. -/
structure Hit where
  source : Doc
  score : Option Rat
deriving Repr, DecidableEq

/-- A backend call attempted by the service: the liveness probe
(`is_connected`), `insert_record`, or `search_records` (with the limit it was
given). -/
inductive Op where
  | probe
  | insertOp (coll : String) (doc : Doc)
  | searchOp (coll : String) (limit : Int)
deriving Repr, DecidableEq

/-- The database service consumed by `QuizHistoryService` (the
`gradeschoolmathsolver.services.database` module is not under `src/`; this is
its interface from spec §4.3/§6): a liveness probe, `insert_record`
returning an id or null, and `search_records` which either returns hits or
fails (an `Except.error` models a raised backend exception). -/
structure DbEnv where
  connected : Bool
  insert : String → Doc → Option Nat
  search : String → Query → List (String × String) → Int → Except String (List Hit)

/-- The configuration the service reads: `DATABASE_BACKEND`,
`ELASTICSEARCH_INDEX`, and the source→embedding column mapping from
`get_embedding_source_mapping()`. -/
structure Cfg where
  backend : String
  index_name : String
  mapping : List (String × String)
deriving Repr, DecidableEq

/-- Modelled from the spec: the default source→embedding mapping, documented
in the service docstring (`EMBEDDING_SOURCE_COLUMNS` default
`question,equation`, `EMBEDDING_COLUMN_NAMES` default
`question_embedding,equation_embedding`, positionally paired);
`get_embedding_source_mapping` itself is not under `src/`. -/
def default_mapping : List (String × String) :=
  [("question", "question_embedding"), ("equation", "equation_embedding")]

/-- Modelled from the spec: `get_embedding_table_name` (not under `src/`);
spec §4.2 only requires the companion-table name to be derived
deterministically from the index name and the embedding column. -/
def embedding_table_name (idx col : String) : String := idx ++ "_" ++ col

/-- The companion-table row built by `add_history` (quiz_history/service.py,
lines 159-162). -/
def companion_doc (doc_id : Nat) (emb : List Rat) : Doc :=
  [("record_id", .num (doc_id : Rat)), ("embedding", .vec emb)]

/-- The main document inserted on the Elasticsearch branch
(`doc.update(embeddings)`, quiz_history/service.py line 166). -/
def es_doc (h : QuizHistory) (embs : List (String × List Rat)) : Doc :=
  dictUpdate (build_doc h) (embs.map (fun p => (p.1, Value.vec p.2)))

/-- `QuizHistoryService.add_history` (quiz_history/service.py, lines
109-172).  Returns the boolean result together with the trace of backend
calls attempted.  A raised `RuntimeError` from embedding generation is
caught by the `except` block and becomes `False`; on the `mariadb` backend
the main insert happens first and companion inserts' results are ignored. -/
def add_history (cfg : Cfg) (svc : Option (String → Option (List Rat)))
    (env : DbEnv) (h : QuizHistory) : Bool × List Op :=
  if !env.connected then (false, [.probe])
  else
    match generate_embeddings_svc svc cfg.mapping h with
    | .error _ => (false, [.probe])
    | .ok embeddings =>
      if cfg.backend = "mariadb" then
        match env.insert cfg.index_name (build_doc h) with
        | none => (false, [.probe, .insertOp cfg.index_name (build_doc h)])
        | some doc_id =>
          (true,
           [.probe, .insertOp cfg.index_name (build_doc h)] ++
             embeddings.map (fun p =>
               Op.insertOp (embedding_table_name cfg.index_name p.1)
                 (companion_doc doc_id p.2)))
      else
        ((env.insert cfg.index_name (es_doc h embeddings)).isSome,
         [.probe, .insertOp cfg.index_name (es_doc h embeddings)])

/-- `top_k = max(1, min(top_k, 20))` (quiz_history/service.py, line 274). -/
def clamp_top_k (top_k : Int) : Int := max 1 (min top_k 20)

/-- `limit = max(1, min(limit, 1000))` (quiz_history/service.py, line 347). -/
def clamp_limit (limit : Int) : Int := max 1 (min limit 1000)

/-- The bool query built by `search_relevant_history` (quiz_history/service.py,
lines 278-295): must-match on username (plus a category term when given),
should-match on question with boost 2 and on user_equation. -/
def relevant_query (username question : String) (category : Option String) : Query :=
  Query.boolQ
    ([Query.matchQ "username" username] ++
      (match category with
       | some c => [Query.termQ "category" c]
       | none => []))
    [Query.matchBoost "question" question 2, Query.matchQ "user_equation" question]

/-- The sort of `search_relevant_history` (lines 297-300). -/
def relevant_sort : List (String × String) := [("_score", "desc"), ("timestamp", "desc")]

/-- `QuizHistoryService._format_search_results` (lines 315-330). -/
def format_search_results (hits : List Hit) : List Doc :=
  hits.map (fun hit =>
    [("question", (lookupPairs hit.source "question").getD .null),
     ("user_equation", (lookupPairs hit.source "user_equation").getD .null),
     ("user_answer", (lookupPairs hit.source "user_answer").getD .null),
     ("correct_answer", (lookupPairs hit.source "correct_answer").getD .null),
     ("is_correct", (lookupPairs hit.source "is_correct").getD .null),
     ("category", (lookupPairs hit.source "category").getD .null),
     ("timestamp", (lookupPairs hit.source "timestamp").getD .null),
     ("score", .num (hit.score.getD 0))])

/-- `QuizHistoryService.search_relevant_history` (lines 252-313), with the
trace of backend calls attempted.  Any backend error degrades to `[]`. -/
def search_relevant_history (cfg : Cfg) (env : DbEnv) (username question : String)
    (category : Option String) (top_k : Int) : List Doc × List Op :=
  if !env.connected then ([], [.probe])
  else
    let k := clamp_top_k top_k
    match env.search cfg.index_name (relevant_query username question category)
        relevant_sort k with
    | .error _ => ([], [.probe, .searchOp cfg.index_name k])
    | .ok hits => (format_search_results hits, [.probe, .searchOp cfg.index_name k])

/-- The query of `get_user_history` (line 350). -/
def user_query (username : String) : Query := Query.matchQ "username" username

/-- The sort of `get_user_history` (line 351). -/
def user_sort : List (String × String) := [("timestamp", "desc")]

/-- `QuizHistoryService.get_user_history` (lines 332-368), with the trace of
backend calls attempted.  Returns the raw `_source` documents; any backend
error degrades to `[]`. -/
def get_user_history (cfg : Cfg) (env : DbEnv) (username : String) (limit : Int) :
    List Doc × List Op :=
  if !env.connected then ([], [.probe])
  else
    let lim := clamp_limit limit
    match env.search cfg.index_name (user_query username) user_sort lim with
    | .error _ => ([], [.probe, .searchOp cfg.index_name lim])
    | .ok hits => (hits.map (fun hit => hit.source), [.probe, .searchOp cfg.index_name lim])


/-! ### Fixtures used by witnesses and counterexamples -/

/-- The sample record of spec §8 ("alice answers 5 + 3"). -/
def hSample : QuizHistory :=
  { username := "alice", question := "What is 5 + 3?", user_equation := "5 + 3",
    user_answer := 8, correct_answer := 8, is_correct := true,
    category := "addition", timestamp := "2024-01-01T00:00:00", reviewed := false }

/-- A record whose `equation` source column resolves to empty text. -/
def hEmptyEquation : QuizHistory := { hSample with user_equation := "" }

/-- A record whose `question` source column resolves to empty text. -/
def hEmptyQuestion : QuizHistory := { hSample with question := "" }

/-- Document-store configuration with the default mapping. -/
def cfgDefault : Cfg :=
  { backend := "elasticsearch", index_name := "quiz_history", mapping := default_mapping }

/-- Split-table (MariaDB) configuration with the default mapping. -/
def cfgMaria : Cfg :=
  { backend := "mariadb", index_name := "quiz_history", mapping := default_mapping }

/-- A healthy backend: connected, every insert issues id 1, searches match nothing. -/
def envUp : DbEnv :=
  { connected := true, insert := fun _ _ => some 1, search := fun _ _ _ _ => .ok [] }

/-- A backend whose liveness probe reports disconnected. -/
def envDown : DbEnv :=
  { connected := false, insert := fun _ _ => some 1, search := fun _ _ _ _ => .ok [] }

/-- A connected backend on which every insert fails (returns null). -/
def envInsertFail : DbEnv :=
  { connected := true, insert := fun _ _ => none, search := fun _ _ _ _ => .ok [] }

/-- A connected backend on which every search raises a backend error. -/
def envSearchErr : DbEnv :=
  { connected := true, insert := fun _ _ => some 1,
    search := fun _ _ _ _ => .error "backend down" }

/-- A connected backend on which the main-collection insert succeeds (id 7)
but every companion-table insert fails (returns null). -/
def envCompFail : DbEnv :=
  { connected := true,
    insert := fun coll _ => if coll = "quiz_history" then some 7 else none,
    search := fun _ _ _ _ => .ok [] }

/-- An embedding client that returns the one-element vector `[1]` for any text. -/
def clientConst : String → Option (List Rat) := fun _ => some [1]

/-- An embedding client that is unreachable: every call fails. -/
def clientNoneF : String → Option (List Rat) := fun _ => none

/-- The real `EmbeddingService.generate_embedding` with the service disabled
by configuration (`EMBEDDING_SERVICE_ENABLED = false`). -/
def clientDisabled : String → Option (List Rat) :=
  fun t => EmbeddingService.generate_embedding false t none

/-! ### Helper lemmas -/


theorem generate_embedding_disabled (t : String) (net : Option EmbedResponse) :
    EmbeddingService.generate_embedding false t net = none := rfl

theorem lookupPairs_setKey_ne (d : Doc) (k1 k : String) (v : Value) (hk : k1 ≠ k) :
    lookupPairs (setKey d k1 v) k = lookupPairs d k := by
  induction d with
  | nil => simp [setKey, lookupPairs, Ne.symm hk]
  | cons p rest ih =>
    obtain ⟨pk, pv⟩ := p
    by_cases hpk : pk = k1
    · subst hpk
      simp [setKey, lookupPairs, Ne.symm hk]
    · simp [setKey, hpk, lookupPairs, ih]

theorem lookupPairs_dictUpdate_notmem (kvs : List (String × Value)) :
    ∀ (d : Doc) (k : String), (∀ p ∈ kvs, p.1 ≠ k) →
      lookupPairs (dictUpdate d kvs) k = lookupPairs d k := by
  induction kvs with
  | nil => intro d k _; rfl
  | cons kv rest ih =>
    intro d k hk
    have h1 : kv.1 ≠ k := hk kv (by simp)
    rw [dictUpdate, ih _ k (fun p hp => hk p (by simp [hp]))]
    exact lookupPairs_setKey_ne d kv.1 k kv.2 h1

theorem pairs_error_of_empty (client : String → Option (List Rat)) (h : QuizHistory)
    (hcl : ∀ t, (client t).isSome = true) :
    ∀ (m : List (String × String)),
      (∃ p ∈ m, (lookupPairs (source_values h) p.1).getD "" = "") →
      ∃ s, generate_embeddings_pairs client h m = .error (.sourceMissing s) ∧
        (lookupPairs (source_values h) s).getD "" = "" := by
  intro m
  induction m with
  | nil => rintro ⟨p, hp, _⟩; cases hp
  | cons pr rest ih =>
    rintro ⟨p, hp, hpe⟩
    obtain ⟨s0, e0⟩ := pr
    by_cases h0 : (lookupPairs (source_values h) s0).getD "" = ""
    · exact ⟨s0, by simp [generate_embeddings_pairs, h0], h0⟩
    · have hrest : ∃ p ∈ rest, (lookupPairs (source_values h) p.1).getD "" = "" := by
        rcases List.mem_cons.mp hp with h1 | h1
        · exact absurd hpe (by rw [h1]; exact h0)
        · exact ⟨p, h1, hpe⟩
      obtain ⟨s, hs, hse⟩ := ih hrest
      obtain ⟨v, hv⟩ := Option.isSome_iff_exists.mp
        (hcl ((lookupPairs (source_values h) s0).getD ""))
      refine ⟨s, ?_, hse⟩
      simp [generate_embeddings_pairs, h0, hv, hs]

/-! C1 -/

/-- C1 (amended): if some configured source column of the record resolves to
empty text and the embedding client yields a vector for every text, `add`
fails with the `EmbeddingSourceMissing`-kind error and attempts no insert. -/
theorem add_empty_source_fails_no_insert (cfg : Cfg) (client : String → Option (List Rat))
    (env : DbEnv) (h : QuizHistory)
    (hempty : ∃ p ∈ cfg.mapping, (lookupPairs (source_values h) p.1).getD "" = "")
    (hcl : ∀ t, (client t).isSome = true) :
    add_history cfg (some client) env h = (false, [Op.probe]) ∧
    ∃ s, generate_embeddings_svc (some client) cfg.mapping h =
        .error (.sourceMissing s) ∧
      (lookupPairs (source_values h) s).getD "" = "" := by
  obtain ⟨s, hs, hse⟩ := pairs_error_of_empty client h hcl cfg.mapping hempty
  refine ⟨?_, ⟨s, by simpa [generate_embeddings_svc] using hs, hse⟩⟩
  cases hc : env.connected
  · simp [add_history, hc]
  · simp [add_history, hc, generate_embeddings_svc, hs]

/-- C1 witness at a concrete input. -/
theorem add_empty_source_fails_no_insert_witness :
    (∃ p ∈ cfgDefault.mapping, (lookupPairs (source_values hEmptyQuestion) p.1).getD "" = "") ∧
    ((∀ t, (clientConst t).isSome = true) ∧
      (add_history cfgDefault (some clientConst) envUp hEmptyQuestion = (false, [Op.probe]) ∧
       ∃ s, generate_embeddings_svc (some clientConst) cfgDefault.mapping hEmptyQuestion =
           .error (.sourceMissing s) ∧
         (lookupPairs (source_values hEmptyQuestion) s).getD "" = "")) :=
  ⟨⟨("question", "question_embedding"), by decide, rfl⟩,
   fun _ => rfl,
   add_empty_source_fails_no_insert cfgDefault clientConst envUp hEmptyQuestion
     ⟨("question", "question_embedding"), by decide, rfl⟩ (fun _ => rfl)⟩

/-- C1 counterexample: the record's `equation` source column is empty, but
because the embedding client fails on the earlier `question` column first,
the operation fails with the `EmbeddingUnavailable` kind, not
`EmbeddingSourceMissing`. -/
theorem empty_source_error_kind_counterexample :
    (lookupPairs (source_values hEmptyEquation) "equation").getD "" = "" ∧
    generate_embeddings_svc (some clientNoneF) default_mapping hEmptyEquation =
      .error (.embeddingUnavailable "question_embedding") ∧
    add_history cfgDefault (some clientNoneF) envUp hEmptyEquation = (false, [Op.probe]) :=
  ⟨rfl, rfl, rfl⟩

/-! C2 -/

/-- C2: when the liveness probe reports disconnected, `add` fails, both
searches return `[]`, and the trace shows no backend call beyond the probe. -/
theorem disconnected_add_and_search_degrade (cfg : Cfg)
    (svc : Option (String → Option (List Rat))) (env : DbEnv) (h : QuizHistory)
    (u q : String) (cat : Option String) (k lim : Int)
    (hconn : env.connected = false) :
    add_history cfg svc env h = (false, [Op.probe]) ∧
    search_relevant_history cfg env u q cat k = ([], [Op.probe]) ∧
    get_user_history cfg env u lim = ([], [Op.probe]) := by
  refine ⟨?_, ?_, ?_⟩ <;>
    simp [add_history, search_relevant_history, get_user_history, hconn]

/-- C2 witness at a concrete input. -/
theorem disconnected_add_and_search_degrade_witness :
    envDown.connected = false ∧
    (add_history cfgDefault (some clientConst) envDown hSample = (false, [Op.probe]) ∧
     search_relevant_history cfgDefault envDown "alice" "q" none 5 = ([], [Op.probe]) ∧
     get_user_history cfgDefault envDown "alice" 100 = ([], [Op.probe])) :=
  ⟨rfl, disconnected_add_and_search_degrade cfgDefault (some clientConst) envDown hSample
    "alice" "q" none 5 100 rfl⟩


/-! C3 -/

/-- C3 (amended): the batch call on the empty list always reports
unavailable, and on success the returned list is non-empty with every
element a non-empty vector; the code does not compare the returned length
with the input length. -/
theorem generate_batch_success_shape (enabled : Bool) (texts : List String)
    (net : Option EmbedResponse) (res : List (List Rat))
    (hsucc : EmbeddingService.generate_embeddings enabled texts net = some res) :
    EmbeddingService.generate_embeddings enabled [] net = none ∧
    res.isEmpty = false ∧ res.all (fun e => !e.isEmpty) = true := by
  refine ⟨by cases enabled <;> rfl, ?_⟩
  cases enabled with
  | false => exact absurd hsucc (by simp [EmbeddingService.generate_embeddings])
  | true =>
    cases texts with
    | nil => exact absurd hsucc (by simp [EmbeddingService.generate_embeddings])
    | cons t ts =>
      cases net with
      | none => exact absurd hsucc (by simp [EmbeddingService.generate_embeddings])
      | some r =>
        unfold EmbeddingService.generate_embeddings at hsucc
        simp only [Bool.not_true, Bool.false_eq_true, if_false, reduceCtorEq] at hsucc
        split_ifs at hsucc with h200 hdata hall
        · obtain rfl : r.data = res := Option.some.inj hsucc
          constructor
          · cases hd : r.data with
            | nil => exact absurd hd hdata
            | cons a l => rfl
          · exact hall
  
/-- C3 witness at a concrete input. -/
theorem generate_batch_success_shape_witness :
    EmbeddingService.generate_embeddings true ["a"] (some { status := 200, data := [[1]] }) =
      some [[1]] ∧
    (EmbeddingService.generate_embeddings true [] (some { status := 200, data := [[1]] }) = none ∧
     ([[(1 : Rat)]] : List (List Rat)).isEmpty = false ∧
     ([[(1 : Rat)]] : List (List Rat)).all (fun e => !e.isEmpty) = true) :=
  ⟨rfl, generate_batch_success_shape true ["a"] (some { status := 200, data := [[1]] }) [[1]] rfl⟩

/-- C3 counterexample: on a two-text batch the endpoint returns only one
embedding, and the code hands the partial batch back instead of reporting
unavailable: the result has length 1 for 2 inputs. -/
theorem generate_batch_partial_counterexample :
    EmbeddingService.generate_embeddings true ["a", "b"]
      (some { status := 200, data := [[1]] }) = some [[1]] ∧
    ([[(1 : Rat)]] : List (List Rat)).length = 1 ∧
    (["a", "b"] : List String).length = 2 :=
  ⟨rfl, rfl, rfl⟩

/-! C4 -/

/-- C4 (amended): with the embedding client disabled entirely, `add` on any
record whose `question` (the first configured source column) is non-empty
fails with the `EmbeddingUnavailable`-kind error and attempts no insert. -/
theorem add_disabled_client_fails_no_insert (cfg : Cfg) (env : DbEnv) (h : QuizHistory)
    (net : String → Option EmbedResponse)
    (hcfg : cfg.mapping = default_mapping) (hq : h.question ≠ "") :
    add_history cfg (some (fun t => EmbeddingService.generate_embedding false t (net t))) env h =
      (false, [Op.probe]) ∧
    generate_embeddings_svc (some (fun t => EmbeddingService.generate_embedding false t (net t)))
        cfg.mapping h = .error (.embeddingUnavailable "question_embedding") := by
  have hgen : generate_embeddings_svc
      (some (fun t => EmbeddingService.generate_embedding false t (net t)))
      cfg.mapping h = .error (.embeddingUnavailable "question_embedding") := by
    rw [hcfg]
    simp [generate_embeddings_svc, generate_embeddings_pairs, default_mapping,
      source_values, lookupPairs, hq, generate_embedding_disabled]
  refine ⟨?_, hgen⟩
  cases hc : env.connected
  · simp [add_history, hc]
  · simp [add_history, hc, hgen]

/-- C4 witness at a concrete input. -/
theorem add_disabled_client_fails_no_insert_witness :
    cfgDefault.mapping = default_mapping ∧ hSample.question ≠ "" ∧
    (add_history cfgDefault
        (some (fun t => EmbeddingService.generate_embedding false t none)) envUp hSample =
      (false, [Op.probe]) ∧
     generate_embeddings_svc (some (fun t => EmbeddingService.generate_embedding false t none))
        cfgDefault.mapping hSample = .error (.embeddingUnavailable "question_embedding")) :=
  ⟨rfl, by decide,
   add_disabled_client_fails_no_insert cfgDefault envUp hSample (fun _ => none) rfl (by decide)⟩

/-- C4 counterexample: the client is disabled, yet an invalid record (empty
`question`) makes `add` fail with the `EmbeddingSourceMissing` kind, not
`EmbeddingUnavailable` as the claim states for every record. -/
theorem disabled_client_error_kind_counterexample :
    generate_embeddings_svc (some clientDisabled) default_mapping hEmptyQuestion =
      .error (.sourceMissing "question") ∧
    isEmbeddingUnavailable
      (generate_embeddings_svc (some clientDisabled) default_mapping hEmptyQuestion) = false ∧
    add_history cfgDefault (some clientDisabled) envUp hEmptyQuestion = (false, [Op.probe]) :=
  ⟨rfl, rfl, rfl⟩

/-! C5 -/

/-- C5: on the split-table backend `add` inserts the main document first —
the document carries exactly the ten base fields, no embedding columns — and
when that insert fails (null id) it returns failure with no companion insert
attempted. -/
theorem mariadb_main_insert_first_abort (cfg : Cfg)
    (svc : Option (String → Option (List Rat))) (env : DbEnv) (h : QuizHistory)
    (embs : List (String × List Rat))
    (hb : cfg.backend = "mariadb") (hconn : env.connected = true)
    (hgen : generate_embeddings_svc svc cfg.mapping h = .ok embs)
    (hmain : env.insert cfg.index_name (build_doc h) = none) :
    add_history cfg svc env h =
      (false, [Op.probe, Op.insertOp cfg.index_name (build_doc h)]) ∧
    (build_doc h).map Prod.fst =
      ["username", "question", "equation", "user_equation", "user_answer",
       "correct_answer", "is_correct", "category", "timestamp", "reviewed"] := by
  refine ⟨?_, rfl⟩
  simp [add_history, hconn, hgen, hb, hmain]

/-- C5 witness at a concrete input. -/
theorem mariadb_main_insert_first_abort_witness :
    cfgMaria.backend = "mariadb" ∧ envInsertFail.connected = true ∧
    generate_embeddings_svc (some clientConst) cfgMaria.mapping hSample =
      .ok [("question_embedding", [1]), ("equation_embedding", [1])] ∧
    envInsertFail.insert cfgMaria.index_name (build_doc hSample) = none ∧
    (add_history cfgMaria (some clientConst) envInsertFail hSample =
      (false, [Op.probe, Op.insertOp cfgMaria.index_name (build_doc hSample)]) ∧
     (build_doc hSample).map Prod.fst =
      ["username", "question", "equation", "user_equation", "user_answer",
       "correct_answer", "is_correct", "category", "timestamp", "reviewed"]) :=
  ⟨rfl, rfl, rfl, rfl,
   mariadb_main_insert_first_abort cfgMaria (some clientConst) envInsertFail hSample
     [("question_embedding", [1]), ("equation_embedding", [1])] rfl rfl rfl rfl⟩

/-! C6 -/

/-- C6 (amended): on the split-table backend, after a successful main insert
`add` attempts one companion-row insert per configured embedding column,
each carrying the issued main-record id, and returns success — regardless of
the companion inserts' outcomes, which it never inspects; the main record is
not rolled back (no further operation touches the main collection). -/
theorem mariadb_companion_rows_after_main (cfg : Cfg)
    (svc : Option (String → Option (List Rat))) (env : DbEnv) (h : QuizHistory)
    (embs : List (String × List Rat)) (doc_id : Nat)
    (hb : cfg.backend = "mariadb") (hconn : env.connected = true)
    (hgen : generate_embeddings_svc svc cfg.mapping h = .ok embs)
    (hmain : env.insert cfg.index_name (build_doc h) = some doc_id) :
    add_history cfg svc env h =
      (true, [Op.probe, Op.insertOp cfg.index_name (build_doc h)] ++
        embs.map (fun p =>
          Op.insertOp (embedding_table_name cfg.index_name p.1)
            (companion_doc doc_id p.2))) := by
  simp [add_history, hconn, hgen, hb, hmain]

/-- C6 witness at a concrete input. -/
theorem mariadb_companion_rows_after_main_witness :
    cfgMaria.backend = "mariadb" ∧ envUp.connected = true ∧
    generate_embeddings_svc (some clientConst) cfgMaria.mapping hSample =
      .ok [("question_embedding", [1]), ("equation_embedding", [1])] ∧
    envUp.insert cfgMaria.index_name (build_doc hSample) = some 1 ∧
    add_history cfgMaria (some clientConst) envUp hSample =
      (true, [Op.probe, Op.insertOp cfgMaria.index_name (build_doc hSample)] ++
        [("question_embedding", [(1 : Rat)]), ("equation_embedding", [(1 : Rat)])].map
          (fun p => Op.insertOp (embedding_table_name cfgMaria.index_name p.1)
            (companion_doc 1 p.2))) :=
  ⟨rfl, rfl, rfl, rfl,
   mariadb_companion_rows_after_main cfgMaria (some clientConst) envUp hSample
     [("question_embedding", [1]), ("equation_embedding", [1])] 1 rfl rfl rfl rfl⟩

/-- C6 counterexample: a companion-table insert fails (null id) yet
`add_history` returns plain success `true` — no `PartialWrite` or any other
warning-level result is surfaced to the caller. -/
theorem companion_failure_silent_success_counterexample :
    envCompFail.insert (embedding_table_name "quiz_history" "question_embedding")
      (companion_doc 7 [1]) = none ∧
    (add_history cfgMaria (some clientConst) envCompFail hSample).1 = true :=
  ⟨rfl, rfl⟩


/-! C7 -/

/-- C7: a backend error during `search_records` is swallowed — both search
operations return the empty list (after the probe and the one search call)
instead of propagating the error to the caller. -/
theorem search_backend_error_returns_empty (cfg : Cfg) (env : DbEnv)
    (u q : String) (cat : Option String) (k lim : Int) (e1 e2 : String)
    (hconn : env.connected = true)
    (hs1 : env.search cfg.index_name (relevant_query u q cat) relevant_sort
      (clamp_top_k k) = .error e1)
    (hs2 : env.search cfg.index_name (user_query u) user_sort
      (clamp_limit lim) = .error e2) :
    search_relevant_history cfg env u q cat k =
      ([], [Op.probe, Op.searchOp cfg.index_name (clamp_top_k k)]) ∧
    get_user_history cfg env u lim =
      ([], [Op.probe, Op.searchOp cfg.index_name (clamp_limit lim)]) := by
  constructor <;>
    simp [search_relevant_history, get_user_history, hconn, hs1, hs2]

/-- C7 witness at a concrete input. -/
theorem search_backend_error_returns_empty_witness :
    envSearchErr.connected = true ∧
    envSearchErr.search cfgDefault.index_name (relevant_query "alice" "q" none) relevant_sort
      (clamp_top_k 5) = .error "backend down" ∧
    envSearchErr.search cfgDefault.index_name (user_query "alice") user_sort
      (clamp_limit 100) = .error "backend down" ∧
    (search_relevant_history cfgDefault envSearchErr "alice" "q" none 5 =
      ([], [Op.probe, Op.searchOp cfgDefault.index_name (clamp_top_k 5)]) ∧
     get_user_history cfgDefault envSearchErr "alice" 100 =
      ([], [Op.probe, Op.searchOp cfgDefault.index_name (clamp_limit 100)])) :=
  ⟨rfl, rfl, rfl,
   search_backend_error_returns_empty cfgDefault envSearchErr "alice" "q" none 5 100
     "backend down" "backend down" rfl rfl rfl⟩

/-! C8 -/

/-- C8: the document persisted by `add` (document-store branch) carries both
an `equation` and a `user_equation` field, each equal to the record's
`user_equation` — merging the embedding columns does not disturb them — and
`get_user_history` returns stored documents unchanged, so a retrieved record
reflects `equation == user_equation`. -/
theorem equation_denormalization_roundtrip (cfg : Cfg)
    (svc : Option (String → Option (List Rat))) (env : DbEnv) (h : QuizHistory)
    (embs : List (String × List Rat)) (u : String) (lim : Int) (hits : List Hit)
    (hb : cfg.backend ≠ "mariadb") (hconn : env.connected = true)
    (hgen : generate_embeddings_svc svc cfg.mapping h = .ok embs)
    (hkeys : ∀ p ∈ embs, p.1 ≠ "equation" ∧ p.1 ≠ "user_equation")
    (hs : env.search cfg.index_name (user_query u) user_sort (clamp_limit lim) = .ok hits) :
    add_history cfg svc env h =
      ((env.insert cfg.index_name (es_doc h embs)).isSome,
       [Op.probe, Op.insertOp cfg.index_name (es_doc h embs)]) ∧
    lookupPairs (es_doc h embs) "equation" = some (.str h.user_equation) ∧
    lookupPairs (es_doc h embs) "user_equation" = some (.str h.user_equation) ∧
    (get_user_history cfg env u lim).1 = hits.map (fun hit => hit.source) := by
  have hkm : ∀ (k : String), (∀ p ∈ embs, p.1 ≠ k) →
      lookupPairs (es_doc h embs) k = lookupPairs (build_doc h) k := by
    intro k hkp
    rw [es_doc]
    refine lookupPairs_dictUpdate_notmem _ _ _ ?_
    intro p hp
    obtain ⟨pq, hpq, rfl⟩ := List.mem_map.mp hp
    exact hkp pq hpq
  refine ⟨?_, ?_, ?_, ?_⟩
  · simp [add_history, hconn, hgen, hb]
  · rw [hkm "equation" (fun p hp => (hkeys p hp).1)]; rfl
  · rw [hkm "user_equation" (fun p hp => (hkeys p hp).2)]; rfl
  · simp [get_user_history, hconn, hs]

/-- C8 witness at a concrete input. -/
theorem equation_denormalization_roundtrip_witness :
    cfgDefault.backend ≠ "mariadb" ∧ envUp.connected = true ∧
    generate_embeddings_svc (some clientConst) cfgDefault.mapping hSample =
      .ok [("question_embedding", [1]), ("equation_embedding", [1])] ∧
    (∀ p ∈ ([("question_embedding", [(1 : Rat)]), ("equation_embedding", [(1 : Rat)])] :
        List (String × List Rat)), p.1 ≠ "equation" ∧ p.1 ≠ "user_equation") ∧
    envUp.search cfgDefault.index_name (user_query "alice") user_sort (clamp_limit 100) =
      .ok [] ∧
    (add_history cfgDefault (some clientConst) envUp hSample =
      ((envUp.insert cfgDefault.index_name
          (es_doc hSample [("question_embedding", [1]), ("equation_embedding", [1])])).isSome,
       [Op.probe, Op.insertOp cfgDefault.index_name
          (es_doc hSample [("question_embedding", [1]), ("equation_embedding", [1])])]) ∧
     lookupPairs (es_doc hSample [("question_embedding", [1]), ("equation_embedding", [1])])
        "equation" = some (.str hSample.user_equation) ∧
     lookupPairs (es_doc hSample [("question_embedding", [1]), ("equation_embedding", [1])])
        "user_equation" = some (.str hSample.user_equation) ∧
     (get_user_history cfgDefault envUp "alice" 100).1 =
       ([] : List Hit).map (fun hit => hit.source)) :=
  ⟨by decide, rfl, rfl, by decide, rfl,
   equation_denormalization_roundtrip cfgDefault (some clientConst) envUp hSample
     [("question_embedding", [1]), ("equation_embedding", [1])] "alice" 100 []
     (by decide) rfl rfl (by decide) rfl⟩

/-! C9 -/

/-- C9: the limit `search_relevant_history` hands to the backend is
`max 1 (min topK 20)`, so it always lies in `[1, 20]`; in particular the
call with `topK = 0` is the call with `topK = 1`, and the call with `topK =
1000` is the call with `topK = 20`. -/
theorem search_top_k_clamped (cfg : Cfg) (env : DbEnv) (u q : String)
    (cat : Option String) (k : Int) (hconn : env.connected = true) :
    (1 ≤ clamp_top_k k ∧ clamp_top_k k ≤ 20) ∧
    clamp_top_k 0 = 1 ∧ clamp_top_k 1000 = 20 ∧
    search_relevant_history cfg env u q cat 0 = search_relevant_history cfg env u q cat 1 ∧
    search_relevant_history cfg env u q cat 1000 = search_relevant_history cfg env u q cat 20 ∧
    (search_relevant_history cfg env u q cat k).2 =
      [Op.probe, Op.searchOp cfg.index_name (clamp_top_k k)] := by
  refine ⟨by unfold clamp_top_k; omega, by decide, by decide, ?_, ?_, ?_⟩
  · unfold search_relevant_history
    rw [show clamp_top_k 0 = clamp_top_k 1 from by decide]
  · unfold search_relevant_history
    rw [show clamp_top_k 1000 = clamp_top_k 20 from by decide]
  · simp only [search_relevant_history, hconn, Bool.not_true, Bool.false_eq_true,
      if_false]
    cases env.search cfg.index_name (relevant_query u q cat) relevant_sort (clamp_top_k k) <;>
      simp

/-- C9 witness at a concrete input. -/
theorem search_top_k_clamped_witness :
    envUp.connected = true ∧
    ((1 ≤ clamp_top_k 7 ∧ clamp_top_k 7 ≤ 20) ∧
     clamp_top_k 0 = 1 ∧ clamp_top_k 1000 = 20 ∧
     search_relevant_history cfgDefault envUp "alice" "q" none 0 =
       search_relevant_history cfgDefault envUp "alice" "q" none 1 ∧
     search_relevant_history cfgDefault envUp "alice" "q" none 1000 =
       search_relevant_history cfgDefault envUp "alice" "q" none 20 ∧
     (search_relevant_history cfgDefault envUp "alice" "q" none 7).2 =
       [Op.probe, Op.searchOp cfgDefault.index_name (clamp_top_k 7)]) :=
  ⟨rfl, search_top_k_clamped cfgDefault envUp "alice" "q" none 7 rfl⟩

/-! C10 -/

/-- C10: the persisted main document's `reviewed` field is the literal
`False` for every record, and the built document does not depend on the
input record's `reviewed` value at all. -/
theorem persisted_reviewed_always_false (h : QuizHistory) (b : Bool) :
    lookupPairs (build_doc h) "reviewed" = some (.bool false) ∧
    build_doc { h with reviewed := b } = build_doc h :=
  ⟨rfl, rfl⟩


end GradeSchoolMathSolver
